import Mathlib

/-!
Shallow embedding of the built-in color functions of
`lib/visitor/evaluator/bifs.js` (the stylus evaluator built-ins).

Nodes are the evaluator value variants consumed by the built-ins:
numeric `unit` values, RGB `color` values, `hsla` values and `str`
text values.  Numeric magnitudes are modelled as rationals.  A
built-in receives its JavaScript `arguments` as a list of optional
nodes, where `none` models the JavaScript value `undefined` supplied
for a missing argument, and either returns a node or fails with a
typed error.  Arity dispatch matches on the length of that list,
mirroring the `switch (arguments.length)` of the source.
-/

namespace Stylus

/-- Value node variants consumed by the built-ins (`nodes.Unit`,
`nodes.Color`, `nodes.HSLA`, `nodes.String`). -/
inductive Node where
  | unit (val : ℚ) (type : Option String)
  | color (r g b a : ℚ)
  | hsla (h s l a : ℚ)
  | str (val : String)
deriving DecidableEq, Repr

/-- Lower-cased constructor name of a node, as produced by
`node.constructor.name.toLowerCase()` in the source. -/
def Node.typeName : Node → String
  | .unit .. => "unit"
  | .color .. => "color"
  | .hsla .. => "hsla"
  | .str .. => "string"

/-- Numeric magnitude of a `unit` node (`u.val`); zero on the other
variants, which the built-ins never read thanks to the type gate. -/
def Node.val : Node → ℚ
  | .unit v _ => v
  | _ => 0

/-- Red channel of a `color` node (`c.r`). -/
def Node.r : Node → ℚ
  | .color x _ _ _ => x
  | _ => 0

/-- Green channel of a `color` node (`c.g`). -/
def Node.g : Node → ℚ
  | .color _ x _ _ => x
  | _ => 0

/-- Blue channel of a `color` node (`c.b`). -/
def Node.b : Node → ℚ
  | .color _ _ x _ => x
  | _ => 0

/-- Alpha component of a `color` or `hsla` node (`c.a`). -/
def Node.a : Node → ℚ
  | .color _ _ _ x => x
  | .hsla _ _ _ x => x
  | _ => 0

/-- Hue component of an `hsla` node (`c.h`). -/
def Node.h : Node → ℚ
  | .hsla x _ _ _ => x
  | _ => 0

/-- Saturation component of an `hsla` node (`c.s`). -/
def Node.s : Node → ℚ
  | .hsla _ x _ _ => x
  | _ => 0

/-- Lightness component of an `hsla` node (`c.l`). -/
def Node.l : Node → ℚ
  | .hsla _ _ x _ => x
  | _ => 0

/-- Membership in the color-like capability set: exactly the `color`
and `hsla` variants. -/
def Node.isColorLike : Node → Bool
  | .color .. => true
  | .hsla .. => true
  | _ => false

/-- Exact-variant test for `unit` nodes. -/
def Node.isUnit : Node → Bool
  | .unit .. => true
  | _ => false

/-- Exact-variant test for `hsla` nodes. -/
def Node.isHSLA : Node → Bool
  | .hsla .. => true
  | _ => false

/-- Typed evaluation failures.  `typeMismatch` carries the expected
and actual variant names (the first taxon of the spec);
`unsupportedArity` is the second taxon of the spec, stated here so
that its absence from the code can be proved; `nativeCrash` models a
raw JavaScript exception from dereferencing `undefined`. -/
inductive Err where
  | typeMismatch (expected actual : String)
  | unsupportedArity
  | nativeCrash
deriving DecidableEq, Repr

/-- JavaScript `Math.round`: round to the nearest integer, half up. -/
def jsRound (x : ℚ) : ℚ := ((x + 1 / 2).floor : ℚ)

/-- Modelled from the spec: helper of the HSL to RGB projection (the
node hierarchy implementing the projection is outside this source
file). -/
def hueToChannel (m1 m2 t : ℚ) : ℚ :=
  let t := if t < 0 then t + 1 else if t > 1 then t - 1 else t
  if t * 6 < 1 then m1 + (m2 - m1) * t * 6
  else if t * 2 < 1 then m2
  else if t * 3 < 2 then m1 + (m2 - m1) * (2 / 3 - t) * 6
  else m1

/-- Modelled from the spec: the HSL to RGB projection exposed by an
`hsla` node (`hsla.rgba`), with integral 0 to 255 channels and the
alpha carried through unchanged. -/
def hslToRgb (h s l a : ℚ) : Node :=
  let hn := h / 360
  let sn := s / 100
  let ln := l / 100
  let m2 := if ln ≤ 1 / 2 then ln * (sn + 1) else ln + sn - ln * sn
  let m1 := ln * 2 - m2
  Node.color (jsRound (hueToChannel m1 m2 (hn + 1 / 3) * 255))
    (jsRound (hueToChannel m1 m2 hn * 255))
    (jsRound (hueToChannel m1 m2 (hn - 1 / 3) * 255))
    a

/-- Modelled from the spec: the RGB to HSL projection exposed by a
`color` node (`color.hsl`), with hue in degrees, saturation and
lightness in percent, and the alpha carried through unchanged. -/
def rgbToHsl (r g b a : ℚ) : Node :=
  let rn := r / 255
  let gn := g / 255
  let bn := b / 255
  let hi := max rn (max gn bn)
  let lo := min rn (min gn bn)
  let l := (hi + lo) / 2
  let d := hi - lo
  let s :=
    if hi = lo then 0
    else if l > 1 / 2 then d / (2 - hi - lo)
    else d / (hi + lo)
  let h :=
    if hi = lo then 0
    else if hi = rn then 60 * ((gn - bn) / d) + (if gn < bn then 360 else 0)
    else if hi = gn then 60 * ((bn - rn) / d) + 120
    else 60 * ((rn - gn) / d) + 240
  Node.hsla h (s * 100) (l * 100) a

/-- Modelled from the spec: every color-like node exposes its RGB
projection on demand (`x.rgba`); an RGB color projects to itself. -/
def Node.rgba : Node → Node
  | .color r g b a => .color r g b a
  | .hsla h s l a => hslToRgb h s l a
  | n => n

/-- Modelled from the spec: every color-like node exposes its HSL
projection on demand (`x.hsl`); an `hsla` node projects to itself. -/
def Node.hsl : Node → Node
  | .color r g b a => rgbToHsl r g b a
  | n => n

/-- Modelled from the spec: `utils.assertType(node, Type)` passes the
node through when its variant is exactly the expected one, and
otherwise fails with a `typeMismatch` naming the expected and actual
variants; a missing (`undefined`) argument reports the actual variant
as `"undefined"`. -/
def assertType (v : Option Node) (expected : String) : Except Err Node :=
  match v with
  | some n =>
      if n.typeName = expected then .ok n
      else .error (.typeMismatch expected n.typeName)
  | none => .error (.typeMismatch expected "undefined")

/-- Modelled from the spec: `utils.assertColor(node)` passes any
color-like node (`color` or `hsla`) through and otherwise fails with
a `typeMismatch`. -/
def assertColor (v : Option Node) : Except Err Node :=
  match v with
  | some n =>
      if n.isColorLike then .ok n
      else .error (.typeMismatch "color or hsla" n.typeName)
  | none => .error (.typeMismatch "color or hsla" "undefined")

/-- JavaScript parameter lookup: the i-th supplied argument, or
`undefined` (`none`) when the call supplied fewer arguments. -/
def param : List (Option Node) → Nat → Option Node
  | [], _ => none
  | x :: _, 0 => x
  | _ :: xs, n + 1 => param xs n

namespace bifs

/-- Embedding of `exports.hsla`: one argument asserts the exact
`color` variant and returns its HSL projection; every other argument
count asserts four `unit` arguments and builds an `hsla` node. -/
def hsla (args : List (Option Node)) : Except Err Node :=
  match args.length with
  | 1 => do
      let c ← assertType (param args 0) "color"
      pure c.hsl
  | _ => do
      let h ← assertType (param args 0) "unit"
      let s ← assertType (param args 1) "unit"
      let l ← assertType (param args 2) "unit"
      let a ← assertType (param args 3) "unit"
      pure (Node.hsla h.val s.val l.val a.val)

/-- Embedding of `exports.hsl`: more than one argument forwards the
first three parameters to `hsla` with an opaque alpha unit; otherwise
the single argument is asserted to be the exact `color` variant. -/
def hsl (args : List (Option Node)) : Except Err Node :=
  if args.length > 1 then
    hsla [param args 0, param args 1, param args 2, some (Node.unit 1 none)]
  else do
    let c ← assertType (param args 0) "color"
    pure c.hsl

/-- Embedding of `exports.type`: wraps the lower-cased constructor
name of the first argument; with no argument the JavaScript source
dereferences `undefined`, modelled as `nativeCrash`. -/
def type (args : List (Option Node)) : Except Err Node :=
  match param args 0 with
  | some n => .ok (.str n.typeName)
  | none => .error .nativeCrash

/-- Embedding of `exports.hue`. -/
def hue (args : List (Option Node)) : Except Err Node := do
  let x ← assertType (param args 0) "hsla"
  pure (Node.unit (jsRound x.h) (some "deg"))

/-- Embedding of `exports.saturation`. -/
def saturation (args : List (Option Node)) : Except Err Node := do
  let x ← assertType (param args 0) "hsla"
  pure (Node.unit (jsRound x.s) (some "%"))

/-- Embedding of `exports.lightness`. -/
def lightness (args : List (Option Node)) : Except Err Node := do
  let x ← assertType (param args 0) "hsla"
  pure (Node.unit (jsRound x.l) (some "%"))

/-- Embedding of `exports.alpha`. -/
def alpha (args : List (Option Node)) : Except Err Node := do
  let c ← assertColor (param args 0)
  pure (Node.unit c.rgba.a none)

/-- Embedding of `exports.red`. -/
def red (args : List (Option Node)) : Except Err Node := do
  let c ← assertColor (param args 0)
  pure (Node.unit c.rgba.r none)

/-- Embedding of `exports.green`. -/
def green (args : List (Option Node)) : Except Err Node := do
  let c ← assertColor (param args 0)
  pure (Node.unit c.rgba.g none)

/-- Embedding of `exports.blue`. -/
def blue (args : List (Option Node)) : Except Err Node := do
  let c ← assertColor (param args 0)
  pure (Node.unit c.rgba.b none)

/-- Embedding of `exports.rgba`: one argument normalizes a color-like
value through its RGB projection, two arguments override the alpha of
the projection, and every other argument count asserts four `unit`
arguments and builds a `color` node from their magnitudes. -/
def rgba (args : List (Option Node)) : Except Err Node :=
  match args.length with
  | 1 => do
      let c ← assertColor (param args 0)
      let col := c.rgba
      pure (Node.color col.r col.g col.b col.a)
  | 2 => do
      let c ← assertColor (param args 0)
      let col := c.rgba
      let g ← assertType (param args 1) "unit"
      pure (Node.color col.r col.g col.b g.val)
  | _ => do
      let r ← assertType (param args 0) "unit"
      let g ← assertType (param args 1) "unit"
      let b ← assertType (param args 2) "unit"
      let a ← assertType (param args 3) "unit"
      pure (Node.color r.val g.val b.val a.val)

/-- Embedding of `exports.rgb`: one argument projects a color-like
value and forces the alpha to 1; every other argument count forwards
the first three parameters to `rgba` with an opaque alpha unit. -/
def rgb (args : List (Option Node)) : Except Err Node :=
  match args.length with
  | 1 => do
      let c ← assertColor (param args 0)
      let col := c.rgba
      pure (Node.color col.r col.g col.b 1)
  | _ => rgba [param args 0, param args 1, param args 2, some (Node.unit 1 none)]

end bifs

/-- Success test on a built-in outcome. -/
def okE : Except Err Node → Bool
  | .ok _ => true
  | .error _ => false

/-- Tests whether an outcome is the UnsupportedArity failure of the
spec taxonomy. -/
def isArityErr : Except Err Node → Bool
  | .error .unsupportedArity => true
  | _ => false

theorem isArityErr_bind_assertType (v : Option Node) (t : String)
    (f : Node → Except Err Node) (hf : ∀ n, isArityErr (f n) = false) :
    isArityErr (assertType v t >>= f) = false := by
  rcases v with _ | n
  · rfl
  · simp only [assertType]
    by_cases h : n.typeName = t
    · rw [if_pos h]
      exact hf n
    · rw [if_neg h]
      rfl

theorem isArityErr_bind_assertColor (v : Option Node)
    (f : Node → Except Err Node) (hf : ∀ n, isArityErr (f n) = false) :
    isArityErr (assertColor v >>= f) = false := by
  rcases v with _ | n
  · rfl
  · simp only [assertColor]
    by_cases h : n.isColorLike
    · rw [if_pos h]
      exact hf n
    · rw [if_neg h]
      rfl

theorem isArityErr_rgba (args : List (Option Node)) :
    isArityErr (bifs.rgba args) = false := by
  rcases args with _ | ⟨r, _ | ⟨g, _ | ⟨b, rest⟩⟩⟩
  · rfl
  · exact isArityErr_bind_assertColor _ _ (fun _ => rfl)
  · exact isArityErr_bind_assertColor _ _ (fun c =>
      isArityErr_bind_assertType _ _ _ (fun u => rfl))
  · exact isArityErr_bind_assertType _ _ _ (fun u1 =>
      isArityErr_bind_assertType _ _ _ (fun u2 =>
        isArityErr_bind_assertType _ _ _ (fun u3 =>
          isArityErr_bind_assertType _ _ _ (fun u4 => rfl))))

theorem isArityErr_hsla (args : List (Option Node)) :
    isArityErr (bifs.hsla args) = false := by
  rcases args with _ | ⟨x, _ | ⟨y, rest⟩⟩
  · rfl
  · exact isArityErr_bind_assertType _ _ _ (fun _ => rfl)
  · exact isArityErr_bind_assertType _ _ _ (fun u1 =>
      isArityErr_bind_assertType _ _ _ (fun u2 =>
        isArityErr_bind_assertType _ _ _ (fun u3 =>
          isArityErr_bind_assertType _ _ _ (fun u4 => rfl))))

theorem isArityErr_hsl (args : List (Option Node)) :
    isArityErr (bifs.hsl args) = false := by
  by_cases h : args.length > 1
  · simp only [bifs.hsl]
    rw [if_pos h]
    exact isArityErr_hsla _
  · simp only [bifs.hsl]
    rw [if_neg h]
    exact isArityErr_bind_assertType _ _ _ (fun _ => rfl)

theorem isArityErr_rgb (args : List (Option Node)) :
    isArityErr (bifs.rgb args) = false := by
  rcases args with _ | ⟨x, _ | ⟨y, rest⟩⟩
  · exact isArityErr_rgba [none, none, none, some (Node.unit 1 none)]
  · exact isArityErr_bind_assertColor _ _ (fun _ => rfl)
  · exact isArityErr_rgba [x, y, param rest 0, some (Node.unit 1 none)]

theorem isArityErr_hue (args : List (Option Node)) :
    isArityErr (bifs.hue args) = false :=
  isArityErr_bind_assertType _ _ _ (fun _ => rfl)

theorem isArityErr_saturation (args : List (Option Node)) :
    isArityErr (bifs.saturation args) = false :=
  isArityErr_bind_assertType _ _ _ (fun _ => rfl)

theorem isArityErr_lightness (args : List (Option Node)) :
    isArityErr (bifs.lightness args) = false :=
  isArityErr_bind_assertType _ _ _ (fun _ => rfl)

theorem isArityErr_alpha (args : List (Option Node)) :
    isArityErr (bifs.alpha args) = false :=
  isArityErr_bind_assertColor _ _ (fun _ => rfl)

theorem isArityErr_red (args : List (Option Node)) :
    isArityErr (bifs.red args) = false :=
  isArityErr_bind_assertColor _ _ (fun _ => rfl)

theorem isArityErr_green (args : List (Option Node)) :
    isArityErr (bifs.green args) = false :=
  isArityErr_bind_assertColor _ _ (fun _ => rfl)

theorem isArityErr_blue (args : List (Option Node)) :
    isArityErr (bifs.blue args) = false :=
  isArityErr_bind_assertColor _ _ (fun _ => rfl)

theorem isArityErr_type (args : List (Option Node)) :
    isArityErr (bifs.type args) = false := by
  simp only [bifs.type]
  rcases param args 0 with _ | n
  · rfl
  · rfl

/-- C1 counterexample: the single-argument calls `hsla(v)` and
`hsl(v)` on an HSLColor input do fail with TypeMismatch, because the
source asserts the exact Color variant (`utils.assertType(h,
nodes.Color)`), not the color-like capability. -/
theorem hsla_one_arg_on_hsla_mismatch :
    bifs.hsla [some (Node.hsla 0 0 0 1)] = .error (.typeMismatch "color" "hsla") ∧
    bifs.hsl [some (Node.hsla 0 0 0 1)] = .error (.typeMismatch "color" "hsla") ∧
    okE (bifs.hsla [some (Node.hsla 0 0 0 1)]) = false :=
  ⟨rfl, rfl, rfl⟩

/-- C1 amended: the single-argument forms of `hsla` and `hsl` assert
the exact RGBColor variant; on an RGBColor input they return its HSL
projection, and on an HSLColor input both fail with TypeMismatch
naming the Color variant as expected. -/
theorem hsla_hsl_one_arg_exact_color (r g b a h s l al : ℚ) :
    bifs.hsla [some (Node.color r g b a)] = .ok (Node.color r g b a).hsl ∧
    bifs.hsl [some (Node.color r g b a)] = .ok (Node.color r g b a).hsl ∧
    bifs.hsla [some (Node.hsla h s l al)] = .error (.typeMismatch "color" "hsla") ∧
    bifs.hsl [some (Node.hsla h s l al)] = .error (.typeMismatch "color" "hsla") :=
  ⟨rfl, rfl, rfl, rfl⟩

/-- C2 counterexample: `rgba` with zero arguments and `hsl` with two
arguments fail with TypeMismatch on the missing (`undefined`)
argument, not with an UnsupportedArity failure. -/
theorem rgba_zero_args_type_mismatch :
    bifs.rgba [] = .error (.typeMismatch "unit" "undefined") ∧
    isArityErr (bifs.rgba []) = false ∧
    bifs.hsl [some (Node.unit 0 none), some (Node.unit 0 none)] =
      .error (.typeMismatch "unit" "undefined") ∧
    isArityErr (bifs.hsl [some (Node.unit 0 none), some (Node.unit 0 none)]) = false :=
  ⟨rfl, rfl, rfl, rfl⟩

/-- C2 amended: no builtin in the table ever fails with
UnsupportedArity for any argument list; an argument count matching no
overload falls into the nearest arity branch, where a missing
argument is `undefined` and fails the type assertion with
TypeMismatch, as `rgba` with zero arguments and `hsl` with two
arguments illustrate. -/
theorem arity_mismatch_never_unsupported_arity (args : List (Option Node)) :
    isArityErr (bifs.rgba args) = false ∧
    isArityErr (bifs.rgb args) = false ∧
    isArityErr (bifs.hsla args) = false ∧
    isArityErr (bifs.hsl args) = false ∧
    isArityErr (bifs.hue args) = false ∧
    isArityErr (bifs.saturation args) = false ∧
    isArityErr (bifs.lightness args) = false ∧
    isArityErr (bifs.alpha args) = false ∧
    isArityErr (bifs.red args) = false ∧
    isArityErr (bifs.green args) = false ∧
    isArityErr (bifs.blue args) = false ∧
    isArityErr (bifs.type args) = false ∧
    bifs.rgba [] = .error (.typeMismatch "unit" "undefined") ∧
    bifs.hsl [some (Node.unit 0 none), some (Node.unit 0 none)] =
      .error (.typeMismatch "unit" "undefined") :=
  ⟨isArityErr_rgba args, isArityErr_rgb args, isArityErr_hsla args,
    isArityErr_hsl args, isArityErr_hue args, isArityErr_saturation args,
    isArityErr_lightness args, isArityErr_alpha args, isArityErr_red args,
    isArityErr_green args, isArityErr_blue args, isArityErr_type args,
    rfl, rfl⟩

/-- C3: for every color-like input, the single-argument call `rgb(c)`
returns an RGBColor whose channels are those of the RGB projection of
`c` and whose alpha is exactly 1, regardless of the source alpha. -/
theorem rgb_one_arg_forces_opaque (c : Node) (hc : c.isColorLike = true) :
    bifs.rgb [some c] = .ok (Node.color c.rgba.r c.rgba.g c.rgba.b 1) := by
  cases c
  · simp [Node.isColorLike] at hc
  · rfl
  · rfl
  · simp [Node.isColorLike] at hc

/-- C3 witness: `rgb` of an HSLColor with alpha 1/4 yields the RGB
projection channels with alpha exactly 1. -/
theorem rgb_one_arg_forces_opaque_witness :
    bifs.rgb [some (Node.hsla 120 50 50 (1 / 4))] =
      .ok (Node.color (Node.hsla 120 50 50 (1 / 4)).rgba.r
        (Node.hsla 120 50 50 (1 / 4)).rgba.g
        (Node.hsla 120 50 50 (1 / 4)).rgba.b 1) :=
  rgb_one_arg_forces_opaque (Node.hsla 120 50 50 (1 / 4)) rfl

/-- C4 counterexample: `hsl(c)` on an HSLColor input with alpha 2/5
does not return a color at all; it fails with TypeMismatch, because
the single-argument form asserts the exact Color variant. -/
theorem hsl_one_arg_rejects_hsla_alpha :
    bifs.hsl [some (Node.hsla 100 50 50 (2 / 5))] =
      .error (.typeMismatch "color" "hsla") ∧
    okE (bifs.hsl [some (Node.hsla 100 50 50 (2 / 5))]) = false :=
  ⟨rfl, rfl⟩

/-- C4 amended: for every RGBColor input, `hsl(c)` and `hsla(c)`
return the HSL projection of `c`, whose alpha equals the alpha of `c`
unchanged; HSLColor inputs are instead rejected with TypeMismatch. -/
theorem hsl_preserves_alpha_on_color (r g b a : ℚ) :
    bifs.hsl [some (Node.color r g b a)] = .ok (rgbToHsl r g b a) ∧
    bifs.hsla [some (Node.color r g b a)] = .ok (rgbToHsl r g b a) ∧
    (rgbToHsl r g b a).a = a :=
  ⟨rfl, rfl, rfl⟩

/-- C5: `hue`, `saturation` and `lightness` fail with TypeMismatch on
every RGBColor input, and succeed exactly on the `hsla` variant. -/
theorem hsl_components_require_exact_hsla (r g b a : ℚ) (n : Node) :
    bifs.hue [some (Node.color r g b a)] = .error (.typeMismatch "hsla" "color") ∧
    bifs.saturation [some (Node.color r g b a)] = .error (.typeMismatch "hsla" "color") ∧
    bifs.lightness [some (Node.color r g b a)] = .error (.typeMismatch "hsla" "color") ∧
    okE (bifs.hue [some n]) = n.isHSLA ∧
    okE (bifs.saturation [some n]) = n.isHSLA ∧
    okE (bifs.lightness [some n]) = n.isHSLA := by
  refine ⟨rfl, rfl, rfl, ?_, ?_, ?_⟩ <;> cases n <;> rfl

/-- C6: a four-argument `rgba` call with any non-`unit` argument
fails with TypeMismatch naming the `unit` variant as expected, and
with four `unit` arguments it builds the RGBColor of their
magnitudes. -/
theorem rgba_four_args_numeric_contract (r g b a : Node) (rv gv bv av : ℚ)
    (ru gu bu au : Option String) :
    ((r.isUnit && g.isUnit && b.isUnit && a.isUnit) = false →
      ∃ act, bifs.rgba [some r, some g, some b, some a] =
        .error (.typeMismatch "unit" act)) ∧
    bifs.rgba [some (Node.unit rv ru), some (Node.unit gv gu),
        some (Node.unit bv bu), some (Node.unit av au)] =
      .ok (Node.color rv gv bv av) := by
  refine ⟨fun h => ?_, rfl⟩
  cases r <;> cases g <;> cases b <;> cases a <;>
    first
      | exact ⟨_, rfl⟩
      | simp [Node.isUnit] at h

/-- C6 witness: `rgba` with a color first argument fails with
TypeMismatch naming the `unit` variant, and with four units it builds
the color from the magnitudes. -/
theorem rgba_four_args_numeric_contract_witness :
    (∃ act, bifs.rgba [some (Node.color 255 0 0 1), some (Node.unit 0 none),
        some (Node.unit 0 none), some (Node.unit 1 none)] =
      .error (.typeMismatch "unit" act)) ∧
    bifs.rgba [some (Node.unit 255 none), some (Node.unit 0 none),
        some (Node.unit 0 none), some (Node.unit (1 / 2) none)] =
      .ok (Node.color 255 0 0 (1 / 2)) :=
  ⟨(rgba_four_args_numeric_contract (Node.color 255 0 0 1) (Node.unit 0 none)
      (Node.unit 0 none) (Node.unit 1 none) 0 0 0 0 none none none none).1 rfl,
    (rgba_four_args_numeric_contract (Node.unit 0 none) (Node.unit 0 none)
      (Node.unit 0 none) (Node.unit 0 none) 255 0 0 (1 / 2)
      none none none none).2⟩

/-- C7: the two-argument call `rgba(c, a)` keeps the RGB projection
channels of a color-like `c` and overrides the alpha with the
magnitude of the `unit` argument; a non-color first argument or a
non-`unit` second argument fails with TypeMismatch. -/
theorem rgba_two_args_contract (c g : Node) (av : ℚ) (au : Option String) :
    (c.isColorLike = true → g = Node.unit av au →
      bifs.rgba [some c, some g] =
        .ok (Node.color c.rgba.r c.rgba.g c.rgba.b av)) ∧
    (c.isColorLike = false →
      bifs.rgba [some c, some g] =
        .error (.typeMismatch "color or hsla" c.typeName)) ∧
    (c.isColorLike = true → g.isUnit = false →
      bifs.rgba [some c, some g] =
        .error (.typeMismatch "unit" g.typeName)) := by
  refine ⟨fun hc hg => ?_, fun hc => ?_, fun hc hg => ?_⟩
  · subst hg
    cases c <;> first | rfl | simp [Node.isColorLike] at hc
  · cases c <;> first | rfl | simp [Node.isColorLike] at hc
  · cases c <;> cases g <;>
      first
        | rfl
        | simp [Node.isColorLike, Node.isUnit] at hc hg

/-- C7 witness: `rgba` of the color 255 204 0 with alpha unit 1/2
keeps the channels and overrides the alpha. -/
theorem rgba_two_args_contract_witness :
    bifs.rgba [some (Node.color 255 204 0 1), some (Node.unit (1 / 2) none)] =
      .ok (Node.color (Node.color 255 204 0 1).rgba.r
        (Node.color 255 204 0 1).rgba.g
        (Node.color 255 204 0 1).rgba.b (1 / 2)) :=
  (rgba_two_args_contract (Node.color 255 204 0 1) (Node.unit (1 / 2) none)
    (1 / 2) none).1 rfl rfl

/-- C8: `hue`, `saturation` and `lightness` round their HSL component
and tag it with the degree and percent units, while `alpha`, `red`,
`green` and `blue` read the RGB projection of any color-like input
and return unitless values, the alpha unrounded. -/
theorem component_accessors_contract (h s l a : ℚ) (c : Node)
    (hc : c.isColorLike = true) :
    bifs.hue [some (Node.hsla h s l a)] = .ok (Node.unit (jsRound h) (some "deg")) ∧
    bifs.saturation [some (Node.hsla h s l a)] = .ok (Node.unit (jsRound s) (some "%")) ∧
    bifs.lightness [some (Node.hsla h s l a)] = .ok (Node.unit (jsRound l) (some "%")) ∧
    bifs.alpha [some c] = .ok (Node.unit c.rgba.a none) ∧
    bifs.red [some c] = .ok (Node.unit c.rgba.r none) ∧
    bifs.green [some c] = .ok (Node.unit c.rgba.g none) ∧
    bifs.blue [some c] = .ok (Node.unit c.rgba.b none) := by
  refine ⟨rfl, rfl, rfl, ?_, ?_, ?_, ?_⟩ <;>
    cases c <;> first | rfl | simp [Node.isColorLike] at hc

/-- C8 witness: the accessors evaluated on `hsla(50, 100, 80, 1)` and
on the color 0 0 0 with alpha 3/10. -/
theorem component_accessors_contract_witness :
    bifs.hue [some (Node.hsla 50 100 80 1)] = .ok (Node.unit (jsRound 50) (some "deg")) ∧
    bifs.saturation [some (Node.hsla 50 100 80 1)] = .ok (Node.unit (jsRound 100) (some "%")) ∧
    bifs.lightness [some (Node.hsla 50 100 80 1)] = .ok (Node.unit (jsRound 80) (some "%")) ∧
    bifs.alpha [some (Node.color 0 0 0 (3 / 10))] =
      .ok (Node.unit (Node.color 0 0 0 (3 / 10)).rgba.a none) ∧
    bifs.red [some (Node.color 0 0 0 (3 / 10))] =
      .ok (Node.unit (Node.color 0 0 0 (3 / 10)).rgba.r none) ∧
    bifs.green [some (Node.color 0 0 0 (3 / 10))] =
      .ok (Node.unit (Node.color 0 0 0 (3 / 10)).rgba.g none) ∧
    bifs.blue [some (Node.color 0 0 0 (3 / 10))] =
      .ok (Node.unit (Node.color 0 0 0 (3 / 10)).rgba.b none) :=
  component_accessors_contract 50 100 80 1 (Node.color 0 0 0 (3 / 10)) rfl

/-- C9: `type` succeeds on every node input and returns the text node
wrapping the lower-cased variant name, in particular `"unit"` for a
numeric value and `"color"` for an RGBColor. -/
theorem type_total_over_variants (n : Node) (v r g b a : ℚ) (u : Option String) :
    bifs.type [some n] = .ok (Node.str n.typeName) ∧
    bifs.type [some (Node.unit v u)] = .ok (Node.str "unit") ∧
    bifs.type [some (Node.color r g b a)] = .ok (Node.str "color") :=
  ⟨rfl, rfl, rfl⟩

/-- C10: with five or more arguments, `rgba` and `hsla` behave
exactly as on the first four arguments; the surplus arguments are
ignored. -/
theorem surplus_args_ignored (args : List (Option Node)) (h5 : 5 ≤ args.length) :
    bifs.rgba args = bifs.rgba (args.take 4) ∧
    bifs.hsla args = bifs.hsla (args.take 4) := by
  rcases args with _ | ⟨a1, _ | ⟨a2, _ | ⟨a3, _ | ⟨a4, _ | ⟨a5, rest⟩⟩⟩⟩⟩ <;>
    exact ⟨rfl, rfl⟩

/-- C10 witness: a five-argument call equals the call on the first
four arguments. -/
theorem surplus_args_ignored_witness :
    bifs.rgba [some (Node.unit 1 none), some (Node.unit 2 none),
        some (Node.unit 3 none), some (Node.unit (1 / 2) none),
        some (Node.unit 9 none)] =
      bifs.rgba ([some (Node.unit 1 none), some (Node.unit 2 none),
        some (Node.unit 3 none), some (Node.unit (1 / 2) none),
        some (Node.unit 9 none)].take 4) ∧
    bifs.hsla [some (Node.unit 1 none), some (Node.unit 2 none),
        some (Node.unit 3 none), some (Node.unit (1 / 2) none),
        some (Node.unit 9 none)] =
      bifs.hsla ([some (Node.unit 1 none), some (Node.unit 2 none),
        some (Node.unit 3 none), some (Node.unit (1 / 2) none),
        some (Node.unit 9 none)].take 4) :=
  surplus_args_ignored [some (Node.unit 1 none), some (Node.unit 2 none),
    some (Node.unit 3 none), some (Node.unit (1 / 2) none),
    some (Node.unit 9 none)] (by simp)

end Stylus
